import Mathlib

/-!
Verification of the simulation core of `servicepoint-bevyroids`
(`src/main.rs`, `src/collision.rs`): boundary handling, motion
integration, speed clamping, collision detection, weapon timing and
asteroid spawning.  `f32` scalar arithmetic is modelled over `ℚ` where
the source only adds, multiplies and compares (boundary systems), and
over `ℝ` where the source takes square roots or trigonometric
functions (vector length, speed clamp, weapon facing, normalization).
-/

namespace Bevyroids

/-! # Definitions -/

/-! ## Boundary subsystem (src/main.rs, `boundary_wrap_system` / `boundary_remove_system`)

Entities carry a `Spatial` component (position, rotation, radius) and a
`Velocity`.  The boundary systems read the window size each tick and
derive `half_width = width / 2`, `half_height = height / 2`. -/

/-- An entity as seen by the boundary systems: the `Spatial` component
(position, rotation, radius) together with its `Velocity`.  Scalars are
`ℚ` (the source's `f32` arithmetic here is additions, multiplications by
2 and comparisons only). -/
structure EntityQ where
  posX : ℚ
  posY : ℚ
  rotation : ℚ
  radius : ℚ
  velX : ℚ
  velY : ℚ
  deriving DecidableEq, Repr

/-- One axis of `boundary_wrap_system`: if `x + radius * 2 < -half`
teleport to `half + radius * 2`, else if `x - radius * 2 > half`
teleport to `-half - radius * 2`, else leave `x` unchanged
(src/main.rs lines 266-270 and 273-277). -/
def wrapCoord (half radius x : ℚ) : ℚ :=
  if x + radius * 2 < -half then half + radius * 2
  else if x - radius * 2 > half then -half - radius * 2
  else x

/-- `boundary_wrap_system` for one wrap-tagged entity: wraps the x
coordinate against `half_width = width / 2` and the y coordinate against
`half_height = height / 2`; only `spatial.position` is written
(src/main.rs lines 260-279). -/
def boundaryWrapSystem (width height : ℚ) (e : EntityQ) : EntityQ :=
  { e with
    posX := wrapCoord (width / 2) e.radius e.posX
    posY := wrapCoord (height / 2) e.radius e.posY }

/-- The despawn condition of `boundary_remove_system`
(src/main.rs lines 289-292): a four-way disjunction over the window
edges. -/
def removeCond (width height : ℚ) (e : EntityQ) : Prop :=
  e.posX + e.radius * 2 < -(width / 2) ∨
  e.posX - e.radius * 2 > width / 2 ∨
  e.posY + e.radius * 2 < -(height / 2) ∨
  e.posY - e.radius * 2 > height / 2

instance (width height : ℚ) (e : EntityQ) : Decidable (removeCond width height e) := by
  unfold removeCond; infer_instance

/-- `boundary_remove_system` over the query of removal-tagged entities:
each entity satisfying `removeCond` is despawned, all others survive
(src/main.rs lines 281-297). -/
def boundaryRemoveSystem (width height : ℚ) (es : List EntityQ) : List EntityQ :=
  es.filter (fun e => ¬ removeCond width height e)

/-- Wrap example entity of claim C3: radius 10, x position as given. -/
def entityAt (x : ℚ) : EntityQ :=
  { posX := x, posY := 0, rotation := 0, radius := 10, velX := 0, velY := 0 }

/-! ## 2-D vectors over ℝ

The parts of the source that take vector lengths (`Vec2::length`,
`clamp_length_max`, `normalize_or_zero`) or trigonometric functions are
modelled over `ℝ`. -/

/-- A 2-D vector with real components, modelling glam's `Vec2`. -/
@[ext]
structure Vec2 where
  x : ℝ
  y : ℝ

instance : Zero Vec2 := ⟨⟨0, 0⟩⟩

instance : Add Vec2 := ⟨fun a b => ⟨a.x + b.x, a.y + b.y⟩⟩

instance : Sub Vec2 := ⟨fun a b => ⟨a.x - b.x, a.y - b.y⟩⟩

instance : SMul ℝ Vec2 := ⟨fun c v => ⟨c * v.x, c * v.y⟩⟩

/-- glam `Vec2::length_squared`: `x * x + y * y`. -/
def Vec2.lengthSquared (v : Vec2) : ℝ := v.x * v.x + v.y * v.y

/-- glam `Vec2::length`: the square root of `length_squared`. -/
noncomputable def Vec2.length (v : Vec2) : ℝ := Real.sqrt v.lengthSquared

/-! ## Collision detector (src/collision.rs, `collision_system`)

The hittable query yields all entities tagged `Collidable` and category
A, the hurtable query all entities tagged `Collidable` and category B;
both are modelled as the lists of entities those queries return.  Each
entry carries the entity id, the `Transform` translation and the
`Bounding` radius the system reads. -/

/-- A row of the collision queries: entity id, `Transform` translation
and `Bounding` radius. -/
structure CollEnt where
  id : ℕ
  translation : Vec2
  bounding : ℝ

/-- `collision_system` (src/collision.rs lines 48-64): the nested scan
over hittables × hurtables; for each pair the Euclidean distance between
translations is compared strictly against the sum of the bounding radii,
and a `HitEvent` (modelled as the pair of entries) is sent on overlap. -/
noncomputable def collisionSystem (hittables hurtables : List CollEnt) :
    List (CollEnt × CollEnt) :=
  hittables.flatMap fun a =>
    hurtables.flatMap fun b =>
      if Vec2.length (a.translation - b.translation) < a.bounding + b.bounding
      then [(a, b)] else []

/-- Concrete doubly-tagged entity for the self-hit witness. -/
def selfTagged : CollEnt := ⟨0, ⟨0, 0⟩, 1⟩

/-! ## Motion integrator and physics scheduling
(src/main.rs lines 34-42 and 154-179) -/

/-- `TIME_STEP` (src/main.rs line 10): the fixed physics timestep. -/
noncomputable def TIME_STEP : ℝ := 1 / 120

/-- Modelled from the dependency glam 0.20, `Vec2::clamp_length_max`
(called by `speed_limit_system`, src/main.rs line 162): if
`length_squared() > max * max` the vector is rescaled by
`max / length_squared().sqrt()`, otherwise it is returned unchanged. -/
noncomputable def clampLengthMax (v : Vec2) (max : ℝ) : Vec2 :=
  if v.lengthSquared > max * max then (max / Real.sqrt v.lengthSquared) • v else v

/-- The per-entity state read and written by the three physics systems:
`Spatial.position`, `Velocity`, and the entity's `Damping` and
`SpeedLimit` component values (the latter two are never written). -/
structure MoveState where
  position : Vec2
  velocity : Vec2
  damping : ℝ
  speedLimit : ℝ

/-- `damping_system` (src/main.rs lines 166-170): `velocity *= damping`. -/
def dampingSystem (s : MoveState) : MoveState :=
  { s with velocity := s.damping • s.velocity }

/-- `speed_limit_system` (src/main.rs lines 160-164):
`velocity = velocity.clamp_length_max(speed_limit)`. -/
noncomputable def speedLimitSystem (s : MoveState) : MoveState :=
  { s with velocity := clampLengthMax s.velocity s.speedLimit }

/-- `movement_system` (src/main.rs lines 154-158):
`position += velocity * TIME_STEP`. -/
noncomputable def movementSystem (s : MoveState) : MoveState :=
  { s with position := s.position + TIME_STEP • s.velocity }

/-- The three systems of the fixed-timestep physics system set
(src/main.rs lines 39-41). -/
inductive SysId where
  | damping
  | speedLimit
  | movement
  deriving DecidableEq, Repr

/-- Dispatch a system id to its state transformer. -/
noncomputable def runSys : SysId → MoveState → MoveState
  | SysId.damping => dampingSystem
  | SysId.speedLimit => speedLimitSystem
  | SysId.movement => movementSystem

/-- The systems registered in the physics set. -/
def physicsSystems : List SysId :=
  [SysId.damping, SysId.speedLimit, SysId.movement]

/-- The ordering constraints declared in `main` (src/main.rs lines
39-41): `damping_system.before(movement_system)` and
`speed_limit_system.before(movement_system)`.  No constraint relates
`damping_system` and `speed_limit_system` to each other. -/
def physicsBefore : List (SysId × SysId) :=
  [(SysId.damping, SysId.movement), (SysId.speedLimit, SysId.movement)]

/-- A sequential execution order the scheduler may choose: a
permutation of the registered systems in which every declared `before`
pair appears in order. -/
def Admissible (order : List SysId) : Prop :=
  List.Perm order physicsSystems ∧
  ∀ p ∈ physicsBefore, order.indexOf p.1 < order.indexOf p.2

instance (order : List SysId) : Decidable (Admissible order) := by
  unfold Admissible; infer_instance

/-- Run the physics systems sequentially in the given order. -/
noncomputable def execSystems (order : List SysId) (s : MoveState) : MoveState :=
  order.foldl (fun s i => runSys i s) s

/-- Concrete state for the scheduling claim: velocity (6, 8) of length
10, damping factor 1/2, speed limit 5. -/
noncomputable def clampOrderState : MoveState :=
  { position := ⟨0, 0⟩, velocity := ⟨6, 8⟩, damping := 1 / 2, speedLimit := 5 }

/-! ## Weapon timing (src/main.rs, `weapon_system`) -/

/-- Modelled from the dependency bevy 0.7, `bevy_core::Timer` (the
weapon's repeating `rate_of_fire` timer): times are in nanoseconds.
The pause flag is omitted (the game never pauses the timer). -/
structure Timer where
  elapsed : ℕ
  duration : ℕ
  repeating : Bool
  finished : Bool
  timesFinished : ℕ

/-- Modelled from the dependency bevy 0.7, `Timer::tick`: a finished
non-repeating timer ignores the delta; otherwise the delta is added to
the accumulated time, `finished` is set iff the accumulated time reached
the duration, and a finishing repeating timer wraps its accumulated time
modulo the duration, recording in `times_finished` how many whole
intervals elapsed. -/
def Timer.tick (t : Timer) (delta : ℕ) : Timer :=
  if !t.repeating && t.finished then { t with timesFinished := 0 }
  else if t.elapsed + delta ≥ t.duration then
    if t.repeating then
      { t with elapsed := (t.elapsed + delta) % t.duration, finished := true,
               timesFinished := (t.elapsed + delta) / t.duration }
    else
      { t with elapsed := t.duration, finished := true, timesFinished := 1 }
  else
    { t with elapsed := t.elapsed + delta, finished := false, timesFinished := 0 }

/-- The `Spatial` component over ℝ (position, rotation, radius), as read
by `weapon_system`. -/
structure SpatialR where
  position : Vec2
  rotation : ℝ
  radius : ℝ

/-- The `Weapon` component (src/main.rs lines 133-137): repeating
cooldown timer plus the level-triggered fire flag. -/
structure Weapon where
  rateOfFire : Timer
  triggered : Bool

/-- The components attached to a spawned bullet (src/main.rs lines
207-213): its `Spatial`, its `Velocity` and the `BoundaryRemoval`
tag. -/
structure Bullet where
  position : Vec2
  rotation : ℝ
  radius : ℝ
  velocity : Vec2
  boundaryRemoval : Bool

/-- `weapon_system` for one weapon-carrying entity (src/main.rs lines
181-216): tick the cooldown timer by the frame delta; if it finished and
the trigger is held, spawn one bullet at the entity's position offset by
its radius along its facing direction, with speed 1000 along the facing,
radius 2, rotation 0 and the `BoundaryRemoval` tag. -/
noncomputable def weaponSystem (sp : SpatialR) (w : Weapon) (delta : ℕ) :
    Weapon × List Bullet :=
  let t := w.rateOfFire.tick delta
  if t.finished && w.triggered then
    ({ w with rateOfFire := t },
      [{ position := sp.position +
           sp.radius • ⟨Real.cos sp.rotation, Real.sin sp.rotation⟩,
         rotation := 0, radius := 2,
         velocity := (1000 : ℝ) • ⟨Real.cos sp.rotation, Real.sin sp.rotation⟩,
         boundaryRemoval := true }])
  else
    ({ w with rateOfFire := t }, [])

/-- A weapon with a fresh 100 ms repeating cooldown
(`Weapon::new(Duration::from_millis(100))`) whose trigger is held. -/
def weaponHeld : Weapon :=
  { rateOfFire :=
      { elapsed := 0, duration := 100000000, repeating := true,
        finished := false, timesFinished := 0 },
    triggered := true }

/-- The ship's `Spatial` at spawn (src/main.rs lines 73-77). -/
noncomputable def shipSpatial : SpatialR :=
  { position := ⟨0, 0⟩, rotation := 0, radius := 12 }

/-! ## Spawner velocity (src/main.rs, `asteroid_spawn_system`) -/

/-- Modelled from the dependency glam 0.20, `Vec2::normalize_or_zero`
(called in src/main.rs line 239): the vector scaled by the reciprocal of
its length when that reciprocal is finite and positive (i.e. when the
length is positive), the zero vector otherwise. -/
noncomputable def normalizeOrZero (v : Vec2) : Vec2 :=
  if 0 < v.length then (1 / v.length) • v else 0

/-- The velocity computation of `asteroid_spawn_system` (src/main.rs
lines 238-239): the direction from the spawn position to the random
target point, normalized zero-safely, scaled by the random speed. -/
noncomputable def asteroidVelocity (target position : Vec2) (speed : ℝ) : Vec2 :=
  speed • normalizeOrZero (target - position)

/-! # Theorems -/

/-! ## Vector component lemmas -/

@[simp] theorem Vec2.zero_x : (0 : Vec2).x = 0 := rfl

@[simp] theorem Vec2.zero_y : (0 : Vec2).y = 0 := rfl

@[simp] theorem Vec2.add_x (a b : Vec2) : (a + b).x = a.x + b.x := rfl

@[simp] theorem Vec2.add_y (a b : Vec2) : (a + b).y = a.y + b.y := rfl

@[simp] theorem Vec2.sub_x (a b : Vec2) : (a - b).x = a.x - b.x := rfl

@[simp] theorem Vec2.sub_y (a b : Vec2) : (a - b).y = a.y - b.y := rfl

@[simp] theorem Vec2.smul_x (c : ℝ) (v : Vec2) : (c • v).x = c * v.x := rfl

@[simp] theorem Vec2.smul_y (c : ℝ) (v : Vec2) : (c • v).y = c * v.y := rfl

theorem Vec2.lengthSquared_nonneg (v : Vec2) : 0 ≤ v.lengthSquared := by
  unfold Vec2.lengthSquared; nlinarith [sq_nonneg v.x, sq_nonneg v.y]

theorem Vec2.length_nonneg (v : Vec2) : 0 ≤ v.length :=
  Real.sqrt_nonneg _

@[simp] theorem Vec2.length_zero : (0 : Vec2).length = 0 := by
  simp [Vec2.length, Vec2.lengthSquared]

theorem Vec2.sq_length (v : Vec2) : v.length ^ 2 = v.lengthSquared :=
  Real.sq_sqrt v.lengthSquared_nonneg

theorem Vec2.length_smul (c : ℝ) (v : Vec2) : (c • v).length = |c| * v.length := by
  unfold Vec2.length Vec2.lengthSquared
  simp only [Vec2.smul_x, Vec2.smul_y]
  rw [show c * v.x * (c * v.x) + c * v.y * (c * v.y) =
      c ^ 2 * (v.x * v.x + v.y * v.y) by ring,
    Real.sqrt_mul (sq_nonneg c), Real.sqrt_sq_eq_abs]

/-! ## Boundary claims (C3, C4, C9, C10) -/

/-- C3 counterexample: in a world of width 800 (half-width 400), the
wrap step sends a radius-10 entity at x = 421 to x = -420
(`-half_width - radius * 2`), not to x = -421 as the claim states. -/
theorem boundary_wrap_421_not_neg421 :
    (boundaryWrapSystem 800 600 (entityAt 421)).posX = -420 ∧
    (boundaryWrapSystem 800 600 (entityAt 421)).posX ≠ -421 := by
  constructor <;> norm_num [boundaryWrapSystem, wrapCoord, entityAt]

/-- C3 (amended): radius 10, width 800: x = 421 triggers the wrap
(421 - 20 > 400) and lands at `-half_width - 2*radius = -420`; x = 419
is left unchanged. -/
theorem boundary_wrap_examples :
    (boundaryWrapSystem 800 600 (entityAt 421)).posX = -420 ∧
    (boundaryWrapSystem 800 600 (entityAt 419)).posX = 419 := by
  constructor <;> norm_num [boundaryWrapSystem, wrapCoord, entityAt]

/-- C4: `boundary_remove_system` retains an entity iff none of the four
edge conditions holds; it destroys the entity iff its far edge
(position ± 2×radius) crosses the left, right, bottom or top boundary
(disjunction over the four edges). -/
theorem boundary_remove_iff (width height : ℚ) (es : List EntityQ) (e : EntityQ) :
    e ∈ boundaryRemoveSystem width height es ↔
      e ∈ es ∧
      ¬ (e.posX + e.radius * 2 < -(width / 2) ∨
         e.posX - e.radius * 2 > width / 2 ∨
         e.posY + e.radius * 2 < -(height / 2) ∨
         e.posY - e.radius * 2 > height / 2) := by
  simp [boundaryRemoveSystem, List.mem_filter, removeCond]

/-- C9: the wrap step writes only the position: velocity, rotation and
bounding radius are unchanged, whether or not a teleport occurs. -/
theorem boundary_wrap_only_position (width height : ℚ) (e : EntityQ) :
    (boundaryWrapSystem width height e).velX = e.velX ∧
    (boundaryWrapSystem width height e).velY = e.velY ∧
    (boundaryWrapSystem width height e).rotation = e.rotation ∧
    (boundaryWrapSystem width height e).radius = e.radius :=
  ⟨rfl, rfl, rfl, rfl⟩

/-- A coordinate produced by `wrapCoord` is a fixed point of
`wrapCoord` with the same half-extent and radius. -/
theorem wrapCoord_idem (half radius x : ℚ) :
    wrapCoord half radius (wrapCoord half radius x) = wrapCoord half radius x := by
  unfold wrapCoord
  split_ifs <;> first | rfl | linarith

/-- C10: the boundary-wrap step is idempotent: applying it twice (with
no movement in between) equals applying it once, for every window size
and every entity. -/
theorem boundary_wrap_idempotent (width height : ℚ) (e : EntityQ) :
    boundaryWrapSystem width height (boundaryWrapSystem width height e) =
      boundaryWrapSystem width height e := by
  unfold boundaryWrapSystem
  simp [wrapCoord_idem]

/-! ## Collision claims (C1, C7) -/

theorem mem_collisionSystem (hs us : List CollEnt) (a b : CollEnt) :
    (a, b) ∈ collisionSystem hs us ↔
      a ∈ hs ∧ b ∈ us ∧
        Vec2.length (a.translation - b.translation) < a.bounding + b.bounding := by
  constructor
  · intro hmem
    simp only [collisionSystem, List.mem_flatMap] at hmem
    obtain ⟨a', ha', b', hb', hab⟩ := hmem
    by_cases h : Vec2.length (a'.translation - b'.translation) < a'.bounding + b'.bounding
    · rw [if_pos h] at hab
      simp only [List.mem_singleton, Prod.mk.injEq] at hab
      obtain ⟨rfl, rfl⟩ := hab
      exact ⟨ha', hb', h⟩
    · rw [if_neg h] at hab
      simp at hab
  · rintro ⟨ha, hb, h⟩
    simp only [collisionSystem, List.mem_flatMap]
    exact ⟨a, ha, b, hb, by rw [if_pos h]; exact List.mem_singleton_self _⟩

/-- C1: a `HitEvent{a,b}` is emitted for `(a, b)` from the hittable and
hurtable queries iff the Euclidean distance between their translations
is strictly below the sum of their bounding radii; in particular an
exactly-touching pair (distance = sum of radii) produces no event,
because the comparison is strict. -/
theorem collision_hit_iff (hs us : List CollEnt) (a b : CollEnt) :
    (a, b) ∈ collisionSystem hs us ↔
      a ∈ hs ∧ b ∈ us ∧
        Vec2.length (a.translation - b.translation) < a.bounding + b.bounding :=
  mem_collisionSystem hs us a b

/-- C7: an entity tagged `Collidable` with both categories appears in
both query lists; its distance to itself is 0, which is below twice a
positive radius, so a self-hit event `(e, e)` is emitted — identical
entity pairs are not excluded. -/
theorem collision_self_hit (e : CollEnt) (h : 0 < e.bounding) :
    (e, e) ∈ collisionSystem [e] [e] := by
  rw [mem_collisionSystem]
  refine ⟨List.mem_singleton_self e, List.mem_singleton_self e, ?_⟩
  have hz : e.translation - e.translation = (0 : Vec2) := by
    ext <;> simp
  rw [hz, Vec2.length_zero]
  linarith

theorem collision_self_hit_witness :
    (0 : ℝ) < selfTagged.bounding ∧
      (selfTagged, selfTagged) ∈ collisionSystem [selfTagged] [selfTagged] :=
  ⟨zero_lt_one, collision_self_hit selfTagged zero_lt_one⟩

/-! ## Speed clamp claim (C5) -/

/-- C5 counterexample: with `SpeedLimit = -1` and velocity `(1, 0)` the
clamp leaves the velocity unchanged (its squared length 1 is not greater
than `(-1) * (-1) = 1`), so the resulting magnitude is 1, which is not
≤ -1: the claim fails for negative speed limits. -/
theorem speed_limit_negative_cx :
    ¬ Vec2.length (clampLengthMax ⟨1, 0⟩ (-1)) ≤ -1 := by
  have hne : clampLengthMax ⟨1, 0⟩ (-1) = ⟨1, 0⟩ := by
    unfold clampLengthMax
    rw [if_neg (by norm_num [Vec2.lengthSquared])]
  have h1 : Vec2.length ⟨1, 0⟩ = 1 := by
    unfold Vec2.length
    norm_num [Vec2.lengthSquared, Real.sqrt_one]
  rw [hne, h1]
  norm_num

/-- C5 (amended): for every velocity and every nonnegative speed limit,
the clamped velocity's magnitude is at most the limit; when the original
magnitude exceeds the limit the result is a nonnegative scalar multiple
of the original (direction preserved); when it is at or under the limit
the velocity is unchanged. -/
theorem speed_limit_clamp (v : Vec2) (limit : ℝ) (h : 0 ≤ limit) :
    Vec2.length (clampLengthMax v limit) ≤ limit ∧
      (limit < Vec2.length v → ∃ c : ℝ, 0 ≤ c ∧ clampLengthMax v limit = c • v) ∧
      (Vec2.length v ≤ limit → clampLengthMax v limit = v) := by
  have hLnn := Vec2.length_nonneg v
  have hsq : Vec2.length v ^ 2 = v.lengthSquared := Vec2.sq_length v
  by_cases hc : v.lengthSquared > limit * limit
  · have hgt : limit < Vec2.length v := by nlinarith
    have hpos : 0 < Vec2.length v := lt_of_le_of_lt h hgt
    have hclamp : clampLengthMax v limit = (limit / Vec2.length v) • v := by
      unfold clampLengthMax Vec2.length
      rw [if_pos hc]
    refine ⟨?_, fun _ => ⟨limit / Vec2.length v, by positivity, hclamp⟩,
      fun hle => absurd hle (not_le.mpr hgt)⟩
    rw [hclamp, Vec2.length_smul, abs_of_nonneg (by positivity),
      div_mul_cancel₀ _ (ne_of_gt hpos)]
  · push_neg at hc
    have hle : Vec2.length v ≤ limit := by
      have hs := Real.sqrt_le_sqrt hc
      rwa [Real.sqrt_mul_self h] at hs
    have heq : clampLengthMax v limit = v := by
      unfold clampLengthMax
      rw [if_neg (not_lt.mpr hc)]
    rw [heq]
    exact ⟨hle, fun hgt => absurd hle (not_le.mpr hgt), fun _ => rfl⟩

theorem speed_limit_clamp_witness :
    (0 : ℝ) ≤ 5 ∧
      (Vec2.length (clampLengthMax ⟨3, 4⟩ 5) ≤ 5 ∧
        (5 < Vec2.length (⟨3, 4⟩ : Vec2) →
          ∃ c : ℝ, 0 ≤ c ∧ clampLengthMax ⟨3, 4⟩ 5 = c • (⟨3, 4⟩ : Vec2)) ∧
        (Vec2.length (⟨3, 4⟩ : Vec2) ≤ 5 → clampLengthMax ⟨3, 4⟩ 5 = ⟨3, 4⟩)) :=
  ⟨by norm_num, speed_limit_clamp ⟨3, 4⟩ 5 (by norm_num)⟩

/-! ## Physics scheduling claim (C2) -/

theorem admissible_cases (order : List SysId) (h : Admissible order) :
    order = [SysId.damping, SysId.speedLimit, SysId.movement] ∨
    order = [SysId.speedLimit, SysId.damping, SysId.movement] := by
  have hlen : order.length = 3 := h.1.length_eq
  obtain ⟨a, b, c, rfl⟩ : ∃ a b c, order = [a, b, c] := by
    rcases order with _ | ⟨a, _ | ⟨b, _ | ⟨c, _ | ⟨d, t⟩⟩⟩⟩
    · simp at hlen
    · simp at hlen
    · simp at hlen
    · exact ⟨a, b, c, rfl⟩
    · simp at hlen
  revert h
  cases a <;> cases b <;> cases c <;> decide

/-- C2 counterexample: the schedule constrains only that damping and
speed clamp each run before integration; the order with the clamp
before damping is admissible, and on velocity (6, 8) with damping 1/2
and limit 5 it produces a different state than the claimed
damping → clamp → integration composition. -/
theorem physics_order_not_fixed :
    Admissible [SysId.speedLimit, SysId.damping, SysId.movement] ∧
      execSystems [SysId.speedLimit, SysId.damping, SysId.movement] clampOrderState ≠
        movementSystem (speedLimitSystem (dampingSystem clampOrderState)) := by
  have hlsq : Vec2.lengthSquared ⟨6, 8⟩ = 100 := by
    norm_num [Vec2.lengthSquared]
  have hsqrt : Real.sqrt (Vec2.lengthSquared ⟨6, 8⟩) = 10 := by
    rw [hlsq, show (100 : ℝ) = 10 ^ 2 by norm_num,
      Real.sqrt_sq (by norm_num : (0 : ℝ) ≤ 10)]
  have hclampBig : clampLengthMax ⟨6, 8⟩ 5 = ⟨3, 4⟩ := by
    unfold clampLengthMax
    rw [if_pos (by rw [hlsq]; norm_num), hsqrt]
    ext <;> simp <;> norm_num
  have hclampSmall : clampLengthMax ⟨3, 4⟩ 5 = ⟨3, 4⟩ := by
    unfold clampLengthMax
    rw [if_neg (by norm_num [Vec2.lengthSquared])]
  refine ⟨by decide, fun heq => ?_⟩
  have hA : (execSystems [SysId.speedLimit, SysId.damping, SysId.movement]
      clampOrderState).velocity = ⟨3 / 2, 2⟩ := by
    show (movementSystem (dampingSystem (speedLimitSystem clampOrderState))).velocity = _
    simp only [movementSystem, dampingSystem, speedLimitSystem, clampOrderState]
    rw [hclampBig]
    ext <;> simp <;> norm_num
  have hB : (movementSystem (speedLimitSystem (dampingSystem
      clampOrderState))).velocity = ⟨3, 4⟩ := by
    simp only [movementSystem, dampingSystem, speedLimitSystem, clampOrderState]
    rw [show (1 / 2 : ℝ) • (⟨6, 8⟩ : Vec2) = ⟨3, 4⟩ by ext <;> simp <;> norm_num]
    rw [hclampSmall]
  rw [heq, hB] at hA
  have hx := congrArg Vec2.x hA
  simp at hx
  norm_num at hx

/-- C2 (amended): every admissible schedule runs `movement_system`
last, so the integration always sees the velocity after both damping and
clamping; but the relative order of `damping_system` and
`speed_limit_system` is unconstrained, so a tick computes one of the two
compositions — the clamp is not guaranteed to see the already-damped
velocity. -/
theorem physics_tick_compositions (order : List SysId) (h : Admissible order)
    (s : MoveState) :
    execSystems order s = movementSystem (speedLimitSystem (dampingSystem s)) ∨
    execSystems order s = movementSystem (dampingSystem (speedLimitSystem s)) := by
  rcases admissible_cases order h with rfl | rfl
  · exact Or.inl rfl
  · exact Or.inr rfl

theorem physics_tick_compositions_witness :
    Admissible [SysId.damping, SysId.speedLimit, SysId.movement] ∧
      (execSystems [SysId.damping, SysId.speedLimit, SysId.movement] clampOrderState =
          movementSystem (speedLimitSystem (dampingSystem clampOrderState)) ∨
        execSystems [SysId.damping, SysId.speedLimit, SysId.movement] clampOrderState =
          movementSystem (dampingSystem (speedLimitSystem clampOrderState))) :=
  ⟨by decide, physics_tick_compositions _ (by decide) clampOrderState⟩

/-! ## Weapon claim (C6) -/

/-- C6 counterexample: a single 250 ms frame delta completes the 100 ms
repeating cooldown twice (the timer records 2 finished intervals), yet
the system spawns only one projectile that tick — not one per
completion. -/
theorem weapon_not_one_per_completion :
    (weaponHeld.rateOfFire.tick 250000000).timesFinished = 2 ∧
      (weaponSystem shipSpatial weaponHeld 250000000).2.length = 1 := by
  constructor
  · decide
  · simp [weaponSystem, weaponHeld, Timer.tick]

/-- C6 (amended): for the repeating weapon timer, exactly one projectile
is spawned in a tick iff the accumulated elapsed time reaches the
cooldown duration and the trigger is held — one per finishing tick, even
if several whole cooldown intervals elapsed within that tick's delta —
and every spawned projectile starts at the firing entity's position
offset along its facing by its radius, moves at speed 1000 along the
facing, has radius 2 and carries the removal boundary policy; otherwise
no projectile is spawned. -/
theorem weapon_fire_iff (sp : SpatialR) (w : Weapon) (delta : ℕ)
    (h : w.rateOfFire.repeating = true) :
    ((weaponSystem sp w delta).2.length =
      if w.rateOfFire.duration ≤ w.rateOfFire.elapsed + delta ∧ w.triggered = true
      then 1 else 0) ∧
    ∀ b ∈ (weaponSystem sp w delta).2,
      b.position = sp.position +
        sp.radius • ⟨Real.cos sp.rotation, Real.sin sp.rotation⟩ ∧
      b.velocity = (1000 : ℝ) • ⟨Real.cos sp.rotation, Real.sin sp.rotation⟩ ∧
      b.radius = 2 ∧ b.boundaryRemoval = true := by
  by_cases hge : w.rateOfFire.duration ≤ w.rateOfFire.elapsed + delta
  · by_cases htr : w.triggered = true
    · constructor
      · simp [weaponSystem, Timer.tick, h, hge, htr]
      · intro b hb
        simp [weaponSystem, Timer.tick, h, hge, htr] at hb
        subst hb
        exact ⟨rfl, rfl, rfl, rfl⟩
    · constructor
      · simp [weaponSystem, Timer.tick, h, hge, htr]
      · intro b hb
        simp [weaponSystem, Timer.tick, h, hge, htr] at hb
  · constructor
    · simp [weaponSystem, Timer.tick, h, hge]
    · intro b hb
      simp [weaponSystem, Timer.tick, h, hge] at hb

theorem weapon_fire_iff_witness :
    weaponHeld.rateOfFire.repeating = true ∧
      (((weaponSystem shipSpatial weaponHeld 100000000).2.length =
        if weaponHeld.rateOfFire.duration ≤
            weaponHeld.rateOfFire.elapsed + 100000000 ∧
            weaponHeld.triggered = true
        then 1 else 0) ∧
      ∀ b ∈ (weaponSystem shipSpatial weaponHeld 100000000).2,
        b.position = shipSpatial.position +
          shipSpatial.radius •
            ⟨Real.cos shipSpatial.rotation, Real.sin shipSpatial.rotation⟩ ∧
        b.velocity = (1000 : ℝ) •
          ⟨Real.cos shipSpatial.rotation, Real.sin shipSpatial.rotation⟩ ∧
        b.radius = 2 ∧ b.boundaryRemoval = true) :=
  ⟨rfl, weapon_fire_iff shipSpatial weaponHeld 100000000 rfl⟩

/-! ## Spawner claim (C8) -/

/-- C8: if the random target point equals the spawn position, the
direction vector has zero length, `normalize_or_zero` takes its
zero fallback, and the spawn velocity is exactly the zero vector for
every speed factor — the division by the zero length is never taken
(in `f32` terms: no NaN is produced). -/
theorem asteroid_velocity_zero_safe (p : Vec2) (speed : ℝ) :
    asteroidVelocity p p speed = 0 := by
  have hz : p - p = (0 : Vec2) := by ext <;> simp
  unfold asteroidVelocity normalizeOrZero
  rw [hz]
  rw [if_neg (by simp)]
  ext <;> simp

end Bevyroids
